import Mathlib

/-!
Verification of the OMMS role/permission admin console.

Part 1 embeds the client-side component logic that is present in the
source (the role-management view and the login view, both Vue single-file
components with `script setup` state and handlers).

Part 2 models the access-control service and HTTP API layer.  The
repository ships the console and a Python dependency list for a
FastAPI/SQLAlchemy backend, but the backend code itself is not present in
the source tree; those definitions are therefore modelled from the spec,
as marked in their doc comments.
-/

/-! ## Data model (spec section 3, and the mock rows in the views) -/

/-- A role row as rendered by the role-management view: id, name,
description, created timestamp. -/
structure Role where
  id : Nat
  name : String
  description : String
  createdAt : String
deriving Repr, DecidableEq

/-- A permission row: id, unique code, name, description. -/
structure Permission where
  id : Nat
  code : String
  name : String
  description : String
deriving Repr, DecidableEq

/-- A user row, including the stored password hash (never serialized). -/
structure User where
  id : Nat
  username : String
  email : String
  fullName : String
  isActive : Bool
  passwordHash : String
deriving Repr, DecidableEq

/-! ## Role-management view (src/unnamed/part_003, script setup) -/

/-- The reactive state of the role-management component: search form,
table data, pagination, the role dialog, and the permission dialog. -/
structure RoleViewState where
  searchName : String
  tableData : List Role
  currentPage : Nat
  pageSize : Nat
  total : Nat
  dialogVisible : Bool
  dialogType : String
  formId : Nat
  formName : String
  formDescription : String
  permissionDialogVisible : Bool
  currentRoleId : Nat
  checkedPermissions : List Nat
deriving Repr, DecidableEq

/-- The initial state of the role-management view: two mock roles in the
table, page 1 of size 10, both dialogs closed, checked permissions
{11, 21}. -/
def initialRoleViewState : RoleViewState :=
  { searchName := ""
    tableData :=
      [ { id := 1, name := "管理员", description := "系统管理员",
          createdAt := "2023-01-01 00:00:00" },
        { id := 2, name := "普通用户", description := "普通用户",
          createdAt := "2023-01-01 00:00:00" } ]
    currentPage := 1
    pageSize := 10
    total := 100
    dialogVisible := false
    dialogType := "add"
    formId := 0
    formName := ""
    formDescription := ""
    permissionDialogVisible := false
    currentRoleId := 0
    checkedPermissions := [11, 21] }

/-- handleDelete in the view: its body is only the comment 实现删除逻辑
("implement delete logic"); it changes no state. -/
def handleDelete (_row : Role) (s : RoleViewState) : RoleViewState := s

/-- savePermissions in the view: its body is the comment 保存权限设置
("save permission settings") followed by closing the permission dialog. -/
def savePermissions (s : RoleViewState) : RoleViewState :=
  { s with permissionDialogVisible := false }

/-- handleSearch in the view: its body is only the comment 实现搜索逻辑;
it changes no state. -/
def handleSearch (s : RoleViewState) : RoleViewState := s

/-- submitForm in the view: its body is the comment 实现表单提交逻辑
followed by closing the role dialog. -/
def submitForm (s : RoleViewState) : RoleViewState :=
  { s with dialogVisible := false }

/-- handleEdit in the view: copies the row into the form and opens the
role dialog. -/
def handleEdit (row : Role) (s : RoleViewState) : RoleViewState :=
  { s with dialogType := "edit", formId := row.id, formName := row.name,
           formDescription := row.description, dialogVisible := true }

/-- handlePermission in the view: records the row's id as the current
role and opens the permission dialog. -/
def handlePermission (row : Role) (s : RoleViewState) : RoleViewState :=
  { s with currentRoleId := row.id, permissionDialogVisible := true }

/-! ## Login view (src/unnamed/part_002, script setup) -/

/-- The username rules in loginRules: required, and length between 3 and
50 characters. -/
def usernameValid (u : String) : Bool :=
  !u.isEmpty && decide (3 ≤ u.length) && decide (u.length ≤ 50)

/-- The password rules in loginRules: required, and length at least 6
characters. -/
def passwordValid (p : String) : Bool :=
  !p.isEmpty && decide (6 ≤ p.length)

/-- The whole login form passes validation when both fields do. -/
def loginFormValid (u p : String) : Bool :=
  usernameValid u && passwordValid p

/-- Client-side browser state touched by handleLogin: localStorage as a
key-value list, the toast messages shown so far, the current route, and
the login button's loading flag. -/
structure ClientState where
  localStorage : List (String × String)
  messages : List String
  route : String
  loading : Bool
deriving Repr, DecidableEq

/-- localStorage.setItem: replace any binding of the key, then add the
new binding. -/
def setItem (store : List (String × String)) (k v : String) :
    List (String × String) :=
  (store.filter (fun kv => kv.1 != k)) ++ [(k, v)]

/-- localStorage.getItem: the value of the first binding of the key. -/
def getItem (store : List (String × String)) (k : String) : Option String :=
  (store.find? (fun kv => kv.1 == k)).map (fun kv => kv.2)

/-- handleLogin in the login view: validate the form against loginRules;
when valid, store the literal string "mock-token" under the key "token",
show the success message 登录成功, and navigate to "/" (the loading flag
is set during the mock delay and cleared before these effects land).
When invalid, do nothing. -/
def handleLogin (username password : String) (s : ClientState) : ClientState :=
  if loginFormValid username password then
    { s with localStorage := setItem s.localStorage "token" "mock-token"
             messages := s.messages ++ ["登录成功"]
             route := "/"
             loading := false }
  else s

/-! ## Lemmas about the client embedding -/

theorem find?_setItem_self (store : List (String × String)) (k v : String) :
    (setItem store k v).find? (fun kv => kv.1 == k) = some (k, v) := by
  unfold setItem
  induction store with
  | nil => simp [List.find?]
  | cons hd tl ih =>
    by_cases h : hd.1 = k
    · simp [h, List.filter, List.find?, ih]
    · have h' : (hd.1 != k) = true := by simp [bne, h]
      simp only [List.filter_cons, h', if_pos]
      simp only [List.cons_append, List.find?]
      have h2 : (hd.1 == k) = false := by simp [h]
      simp [h2, ih]

theorem getItem_setItem_self (store : List (String × String)) (k v : String) :
    getItem (setItem store k v) k = some v := by
  unfold getItem
  rw [find?_setItem_self]
  rfl

/-! ## Claim theorems for the client-side code -/

/-- Claim C10: in the role-management view as shipped, handleDelete
changes no component state at all (so the table still contains the row
passed to it), and savePermissions changes nothing except closing the
permission dialog: tableData, checkedPermissions and currentRoleId are
identical before and after either call. -/
theorem stub_handlers_frame (row : Role) (s : RoleViewState) :
    handleDelete row s = s ∧
    (row ∈ s.tableData → row ∈ (handleDelete row s).tableData) ∧
    savePermissions s = { s with permissionDialogVisible := false } ∧
    (savePermissions s).tableData = s.tableData ∧
    (savePermissions s).checkedPermissions = s.checkedPermissions ∧
    (savePermissions s).currentRoleId = s.currentRoleId ∧
    (savePermissions s).permissionDialogVisible = false := by
  refine ⟨rfl, fun h => h, rfl, rfl, rfl, rfl, rfl⟩

/-- Witness for C10: evaluated on the initial view state and its first
table row (the admin role). -/
theorem stub_handlers_frame_witness :
    handleDelete { id := 1, name := "管理员", description := "系统管理员",
                   createdAt := "2023-01-01 00:00:00" } initialRoleViewState
      = initialRoleViewState ∧
    (savePermissions initialRoleViewState).checkedPermissions = [11, 21] := by
  have h := stub_handlers_frame
    { id := 1, name := "管理员", description := "系统管理员",
      createdAt := "2023-01-01 00:00:00" } initialRoleViewState
  exact ⟨h.1, by rw [h.2.2.2.2.1]; rfl⟩

/-- Claim C9: any two credential pairs that both pass the client-side
loginRules validation make handleLogin behave identically; in either
case it stores "mock-token" under the key "token", appends the success
message, and navigates to "/". -/
theorem handleLogin_credential_independent (u₁ p₁ u₂ p₂ : String)
    (s : ClientState)
    (h₁ : loginFormValid u₁ p₁ = true) (h₂ : loginFormValid u₂ p₂ = true) :
    handleLogin u₁ p₁ s = handleLogin u₂ p₂ s ∧
    getItem (handleLogin u₁ p₁ s).localStorage "token" = some "mock-token" ∧
    (handleLogin u₁ p₁ s).route = "/" ∧
    (handleLogin u₁ p₁ s).messages = s.messages ++ ["登录成功"] := by
  unfold handleLogin
  rw [h₁, h₂]
  exact ⟨rfl, getItem_setItem_self _ _ _, rfl, rfl⟩

/-- Witness for C9: two unrelated valid credential pairs, starting from a
fresh browser state on the login page, give the same outcome. -/
theorem handleLogin_credential_independent_witness :
    handleLogin "admin" "123456"
        { localStorage := [], messages := [], route := "/login", loading := false }
      = handleLogin "operator" "hunter2x"
        { localStorage := [], messages := [], route := "/login", loading := false } ∧
    getItem (handleLogin "admin" "123456"
        { localStorage := [], messages := [], route := "/login",
          loading := false }).localStorage "token" = some "mock-token" := by
  have h := handleLogin_credential_independent "admin" "123456" "operator"
    "hunter2x"
    { localStorage := [], messages := [], route := "/login", loading := false }
    (by decide) (by decide)
  exact ⟨h.1, h.2.1⟩

/-! ## Access-control service

The repository's Python dependency list declares a FastAPI/SQLAlchemy
backend, but its code is not in the source tree; the console views only
call it.  The definitions below are therefore modelled from the spec. -/

/-- Modelled from the spec: the relational schema — tables users, roles,
permissions, and join tables user_roles (userId, roleId) and
role_permissions (roleId, permissionId).  The backend persistence code is
missing from the source tree. -/
structure DB where
  roles : List Role
  permissions : List Permission
  users : List User
  rolePermissions : List (Nat × Nat)
  userRoles : List (Nat × Nat)
deriving Repr, DecidableEq

/-- Modelled from the spec: the error taxonomy — ValidationError (422),
ConflictError (409), NotFoundError (404), AuthError (401/403). -/
inductive ApiError where
  | validation
  | conflict
  | notFound
  | auth (status : Nat)
deriving Repr, DecidableEq

/-- Modelled from the spec: HTTP status of each error of the taxonomy. -/
def statusOf : ApiError → Nat
  | ApiError.validation => 422
  | ApiError.conflict => 409
  | ApiError.notFound => 404
  | ApiError.auth s => s

/-- Modelled from the spec: getRolePermissions(id) — the set of
permission ids joined to the role in role_permissions. -/
def getRolePermissions (db : DB) (roleId : Nat) : List Nat :=
  (db.rolePermissions.filter (fun rp => rp.1 == roleId)).map (fun rp => rp.2)

/-- Whether a permission id exists in the permissions table. -/
def permissionExists (db : DB) (pid : Nat) : Bool :=
  db.permissions.any (fun p => p.id == pid)

/-- Modelled from the spec: setRolePermissions(id, permissionIds) —
atomic full replace of the role's rows in role_permissions; fails with
ValidationError if any id does not exist.  The backend service code is
missing from the source tree. -/
def setRolePermissions (db : DB) (roleId : Nat) (pids : List Nat) :
    Except ApiError DB :=
  if pids.all (fun pid => permissionExists db pid) then
    Except.ok { db with
      rolePermissions :=
        db.rolePermissions.filter (fun rp => rp.1 != roleId)
          ++ pids.map (fun pid => (roleId, pid)) }
  else
    Except.error ApiError.validation

/-- Modelled from the spec: the PUT /roles/{id}/permissions handler —
200 and the new database on success; the error's status and the
untouched database on failure (transactional, no partial write). -/
def putRolePermissionsHandler (db : DB) (roleId : Nat) (pids : List Nat) :
    Nat × DB :=
  match setRolePermissions db roleId pids with
  | Except.ok db' => (200, db')
  | Except.error e => (statusOf e, db)

/-- Modelled from the spec: deleteRole(id) — removes the role and
cascades deletion of its role_permissions and user_roles rows. -/
def deleteRole (db : DB) (roleId : Nat) : DB :=
  { db with
    roles := db.roles.filter (fun r => r.id != roleId)
    rolePermissions := db.rolePermissions.filter (fun rp => rp.1 != roleId)
    userRoles := db.userRoles.filter (fun ur => ur.2 != roleId) }

/-- The next free role id: one more than the largest id in use. -/
def nextRoleId (db : DB) : Nat :=
  (db.roles.map Role.id).foldr max 0 + 1

/-- Modelled from the spec: createRole(name, description) — fails with
ConflictError if the name already exists, otherwise appends the new
role. -/
def createRole (db : DB) (name description : String) :
    Except ApiError (DB × Role) :=
  if db.roles.any (fun r => r.name == name) then
    Except.error ApiError.conflict
  else
    let r : Role := { id := nextRoleId db, name := name,
                      description := description, createdAt := "" }
    Except.ok ({ db with roles := db.roles ++ [r] }, r)

/-- Modelled from the spec: the POST /roles handler — 201 and the new
database on success; the error's status and the untouched database on
failure. -/
def postRolesHandler (db : DB) (name description : String) : Nat × DB :=
  match createRole db name description with
  | Except.ok (db', _) => (201, db')
  | Except.error e => (statusOf e, db)

/-- Case-insensitive substring test: the needle, lower-cased, occurs
contiguously in the hay, lower-cased. -/
def containsCI (hay needle : String) : Bool :=
  let h := hay.toLower.data
  let n := needle.toLower.data
  (List.range (h.length + 1)).any (fun i => n.isPrefixOf (h.drop i))

/-- Whether a role passes the optional name filter. -/
def matchesFilter (nameFilter : Option String) (r : Role) : Bool :=
  match nameFilter with
  | none => true
  | some f => containsCI r.name f

/-- Modelled from the spec: listRoles(filter: name?) — case-insensitive
substring match on name (all roles when the filter is absent), returned
as the requested 1-based page of the requested size. -/
def listRoles (db : DB) (nameFilter : Option String) (page size : Nat) :
    List Role :=
  (((db.roles.filter (matchesFilter nameFilter)).drop ((page - 1) * size)).take
    size)

/-- A User response body: every field of the record except the password
hash.  Modelled from the spec: User endpoints never return the hash. -/
structure UserResponse where
  id : Nat
  username : String
  email : String
  fullName : String
  isActive : Bool
deriving Repr, DecidableEq

/-- Serialize a stored user for a response, omitting the password hash. -/
def userToResponse (u : User) : UserResponse :=
  { id := u.id, username := u.username, email := u.email,
    fullName := u.fullName, isActive := u.isActive }

/-- Modelled from the spec: GET /users — list every user, serialized
without the hash. -/
def listUsers (db : DB) : List UserResponse :=
  db.users.map userToResponse

/-- Modelled from the spec: GET /users/{id} — the user with that id,
serialized without the hash, when present. -/
def getUser (db : DB) (userId : Nat) : Option UserResponse :=
  (db.users.find? (fun u => u.id == userId)).map userToResponse

/-- A stored user with the password hash blanked out; two users agree on
everything except the hash exactly when scrubbing makes them equal. -/
def scrubHash (u : User) : User :=
  { u with passwordHash := "" }

/-! ## HTTP authentication layer -/

/-- Modelled from the spec: every endpoint requires a bearer token; a
request with no token, or a token the server does not recognise, gets
401 and the handler never runs, so the database is untouched. -/
def requireAuth (token : Option String) (validTokens : List String)
    (handler : DB → Nat × DB) (db : DB) : Nat × DB :=
  match token with
  | none => (401, db)
  | some t => if validTokens.contains t then handler db else (401, db)

/-- Modelled from the spec: PUT /roles/{id}/permissions guarded by
bearer-token authentication. -/
def putRolePermissionsEndpoint (token : Option String)
    (validTokens : List String) (db : DB) (roleId : Nat) (pids : List Nat) :
    Nat × DB :=
  requireAuth token validTokens
    (fun d => putRolePermissionsHandler d roleId pids) db

/-! ## Transaction model for setRolePermissions -/

/-- A row-level statement inside the setRolePermissions transaction:
one DELETE of all the role's rows, or one INSERT of a single row. -/
inductive RowOp where
  | delAll (roleId : Nat)
  | ins (row : Nat × Nat)
deriving Repr, DecidableEq

/-- Execute one statement against the database. -/
def applyOp (db : DB) : RowOp → DB
  | RowOp.delAll roleId =>
      { db with rolePermissions :=
          db.rolePermissions.filter (fun rp => rp.1 != roleId) }
  | RowOp.ins row =>
      { db with rolePermissions := db.rolePermissions ++ [row] }

/-- Modelled from the spec: the statements the setRolePermissions
transaction executes — delete the role's existing assignment rows, then
insert the new set row by row. -/
def txOps (roleId : Nat) (pids : List Nat) : List RowOp :=
  RowOp.delAll roleId :: pids.map (fun pid => RowOp.ins (roleId, pid))

/-- The database state after the whole transaction body has run. -/
def commitState (db : DB) (roleId : Nat) (pids : List Nat) : DB :=
  (txOps roleId pids).foldl applyOp db

/-- Modelled from the spec: the transaction commits atomically, so a
concurrent reader observes only the state before the transaction began
or the state after it committed — never an uncommitted intermediate
state. -/
def observableStates (db : DB) (roleId : Nat) (pids : List Nat) : List DB :=
  [db, commitState db roleId pids]

/-! ## A concrete database for witnesses

The mock rows shipped in the console views: roles 管理员 (id 1) and
普通用户 (id 2), the eight leaf permissions of the tree picker, the admin
user, role 1 holding permissions {11, 21}. -/

def db0 : DB :=
  { roles :=
      [ { id := 1, name := "管理员", description := "系统管理员",
          createdAt := "2023-01-01 00:00:00" },
        { id := 2, name := "普通用户", description := "普通用户",
          createdAt := "2023-01-01 00:00:00" } ]
    permissions :=
      [ { id := 11, code := "user:view", name := "查看用户", description := "" },
        { id := 12, code := "user:create", name := "创建用户", description := "" },
        { id := 13, code := "user:edit", name := "编辑用户", description := "" },
        { id := 14, code := "user:delete", name := "删除用户", description := "" },
        { id := 21, code := "role:view", name := "查看角色", description := "" },
        { id := 22, code := "role:create", name := "创建角色", description := "" },
        { id := 23, code := "role:edit", name := "编辑角色", description := "" },
        { id := 24, code := "role:delete", name := "删除角色", description := "" } ]
    users :=
      [ { id := 1, username := "admin", email := "admin@example.com",
          fullName := "管理员", isActive := true, passwordHash := "hash-a" } ]
    rolePermissions := [(1, 11), (1, 21)]
    userRoles := [(1, 1)] }

/-- db0 with the stored user's password hash changed and nothing else. -/
def db0' : DB :=
  { db0 with users :=
      [ { id := 1, username := "admin", email := "admin@example.com",
          fullName := "管理员", isActive := true, passwordHash := "hash-b" } ] }

/-! ## Helper lemmas about the service model -/

theorem filter_ne_then_eq_nil (l : List (Nat × Nat)) (rid : Nat) :
    (l.filter (fun rp => rp.1 != rid)).filter (fun rp => rp.1 == rid) = [] := by
  induction l with
  | nil => rfl
  | cons a t ih =>
    by_cases h : a.1 = rid
    · simp [List.filter_cons, h, ih]
    · simp [List.filter_cons, h, ih]

theorem rows_of_replaced (l : List (Nat × Nat)) (rid : Nat) (pids : List Nat) :
    ((l.filter (fun rp => rp.1 != rid)
        ++ pids.map (fun pid => (rid, pid))).filter
      (fun rp => rp.1 == rid)).map (fun rp => rp.2) = pids := by
  rw [List.filter_append, filter_ne_then_eq_nil]
  have h2 : (pids.map (fun pid => ((rid, pid) : Nat × Nat))).filter
      (fun rp => rp.1 == rid) = pids.map (fun pid => (rid, pid)) := by
    induction pids with
    | nil => rfl
    | cons a t ih => simp [List.filter_cons, ih]
  rw [h2, List.nil_append, List.map_map]
  simp

/-! ## Claim theorems for the access-control service -/

/-- The database produced by a successful setRolePermissions: the
role's old join rows replaced wholesale by the submitted set. -/
def replacedDB (db : DB) (rid : Nat) (pids : List Nat) : DB :=
  { db with
    rolePermissions :=
      db.rolePermissions.filter (fun rp => rp.1 != rid)
        ++ pids.map (fun pid => (rid, pid)) }

theorem getRolePermissions_replacedDB (db : DB) (rid : Nat)
    (pids : List Nat) :
    getRolePermissions (replacedDB db rid pids) rid = pids :=
  rows_of_replaced db.rolePermissions rid pids

/-- Claim C1: for every role id and every list of permission ids whose
members all exist, setRolePermissions succeeds and a following
getRolePermissions returns exactly that list — in particular the same
set of ids, order irrelevant. -/
theorem set_get_roundtrip (db : DB) (rid : Nat) (pids : List Nat)
    (h : pids.all (fun pid => permissionExists db pid) = true) :
    ∃ db', setRolePermissions db rid pids = Except.ok db' ∧
      getRolePermissions db' rid = pids ∧
      (∀ a, a ∈ getRolePermissions db' rid ↔ a ∈ pids) := by
  refine ⟨replacedDB db rid pids, ?_, ?_, ?_⟩
  · simp [setRolePermissions, replacedDB, h]
  · exact getRolePermissions_replacedDB db rid pids
  · intro a
    rw [getRolePermissions_replacedDB db rid pids]

/-- Witness for C1: the spec's example — role 1 starts with {11, 21};
after setRolePermissions(1, [11, 12, 21]), getRolePermissions(1) is
exactly [11, 12, 21]. -/
theorem set_get_roundtrip_witness :
    ∃ db', setRolePermissions db0 1 [11, 12, 21] = Except.ok db' ∧
      getRolePermissions db' 1 = [11, 12, 21] ∧
      (∀ a, a ∈ getRolePermissions db' 1 ↔ a ∈ [11, 12, 21]) :=
  set_get_roundtrip db0 1 [11, 12, 21] (by decide)

/-- Claim C2: when at least one requested permission id does not exist,
setRolePermissions fails with ValidationError, the endpoint answers 422,
and the role's permission set is exactly what it was before the call. -/
theorem set_invalid_no_write (db : DB) (rid : Nat) (pids : List Nat)
    (h : ∃ pid ∈ pids, permissionExists db pid = false) :
    setRolePermissions db rid pids = Except.error ApiError.validation ∧
    putRolePermissionsHandler db rid pids = (422, db) ∧
    getRolePermissions (putRolePermissionsHandler db rid pids).2 rid
      = getRolePermissions db rid := by
  obtain ⟨pid, hmem, hfalse⟩ := h
  have hall : pids.all (fun pid => permissionExists db pid) = false := by
    by_contra hc
    have htrue : pids.all (fun pid => permissionExists db pid) = true := by
      cases hb : pids.all (fun pid => permissionExists db pid) with
      | false => exact absurd hb hc
      | true => rfl
    have := List.all_eq_true.mp htrue pid hmem
    rw [hfalse] at this
    exact Bool.false_ne_true this
  refine ⟨?_, ?_, ?_⟩
  · simp [setRolePermissions, hall]
  · simp [putRolePermissionsHandler, setRolePermissions, hall, statusOf]
  · simp [putRolePermissionsHandler, setRolePermissions, hall]

/-- Witness for C2: the spec's example — setRolePermissions(1, {99999})
where 99999 does not exist fails with ValidationError and leaves role
1's permission set unchanged. -/
theorem set_invalid_no_write_witness :
    setRolePermissions db0 1 [99999] = Except.error ApiError.validation ∧
    putRolePermissionsHandler db0 1 [99999] = (422, db0) ∧
    getRolePermissions (putRolePermissionsHandler db0 1 [99999]).2 1
      = getRolePermissions db0 1 :=
  set_invalid_no_write db0 1 [99999] ⟨99999, by decide, by decide⟩

/-- Claim C3: after deleteRole(id), no row with that role id remains in
the role-permission join table, no user retains an assignment to that
role, and the role row itself is gone. -/
theorem deleteRole_cascades (db : DB) (rid : Nat) :
    (∀ rp ∈ (deleteRole db rid).rolePermissions, rp.1 ≠ rid) ∧
    (∀ ur ∈ (deleteRole db rid).userRoles, ur.2 ≠ rid) ∧
    (∀ r ∈ (deleteRole db rid).roles, r.id ≠ rid) := by
  refine ⟨?_, ?_, ?_⟩
  · intro rp hrp
    have := (List.mem_filter.mp hrp).2
    simpa using this
  · intro ur hur
    have := (List.mem_filter.mp hur).2
    simpa using this
  · intro r hr
    have := (List.mem_filter.mp hr).2
    simpa using this

/-- Witness for C3: after deleting role 1 from the mock database, its
join row (1, 11) is gone. -/
theorem deleteRole_cascades_witness :
    (1, 11) ∉ (deleteRole db0 1).rolePermissions :=
  fun h => (deleteRole_cascades db0 1).1 (1, 11) h rfl

/-- Claim C4: creating a role whose name already exists fails with
ConflictError, and the endpoint answers 409 with the database — hence
the existing role — unchanged. -/
theorem createRole_conflict (db : DB) (name d : String)
    (h : ∃ r ∈ db.roles, r.name = name) :
    createRole db name d = Except.error ApiError.conflict ∧
    postRolesHandler db name d = (409, db) := by
  have hany : db.roles.any (fun r => r.name == name) = true := by
    obtain ⟨r, hr, he⟩ := h
    exact List.any_eq_true.mpr ⟨r, hr, by simp [he]⟩
  constructor
  · simp [createRole, hany]
  · simp [postRolesHandler, createRole, hany, statusOf]

/-- Witness for C4: creating a second 管理员 role fails with
ConflictError and leaves the database unchanged. -/
theorem createRole_conflict_witness :
    createRole db0 "管理员" "duplicate" = Except.error ApiError.conflict ∧
    postRolesHandler db0 "管理员" "duplicate" = (409, db0) :=
  createRole_conflict db0 "管理员" "duplicate" (by decide)

/-- Claim C5: a request with no bearer token, or one the server does not
recognise, gets 401 from every guarded endpoint and the database is not
mutated; in particular the guarded PUT /roles/{id}/permissions. -/
theorem unauth_401_no_mutation (token : Option String) (vt : List String)
    (handler : DB → Nat × DB) (db : DB) (rid : Nat) (pids : List Nat)
    (h : ∀ t, token = some t → vt.contains t = false) :
    requireAuth token vt handler db = (401, db) ∧
    putRolePermissionsEndpoint token vt db rid pids = (401, db) := by
  have key : ∀ hd : DB → Nat × DB, requireAuth token vt hd db = (401, db) := by
    intro hd
    cases token with
    | none => rfl
    | some t =>
      show (if vt.contains t then hd db else (401, db)) = (401, db)
      rw [h t rfl]
      rfl
  exact ⟨key handler, key _⟩

/-- Witness for C5: an unauthenticated PUT /roles/1/permissions returns
401 and leaves the mock database untouched. -/
theorem unauth_401_no_mutation_witness :
    putRolePermissionsEndpoint none ["secret"] db0 1 [11, 12, 21]
      = (401, db0) :=
  (unauth_401_no_mutation none ["secret"]
    (fun d => putRolePermissionsHandler d 1 [11, 12, 21]) db0 1 [11, 12, 21]
    (fun _ ht => nomatch ht)).2

/-! ## Claim C6: transactional atomicity of setRolePermissions -/

theorem foldl_ins_rolePermissions (rows : List (Nat × Nat)) (d : DB) :
    (rows.map RowOp.ins).foldl applyOp d
      = { d with rolePermissions := d.rolePermissions ++ rows } := by
  induction rows generalizing d with
  | nil => simp
  | cons a t ih =>
    rw [List.map_cons, List.foldl_cons, ih]
    simp [applyOp]

theorem commitState_eq_replacedDB (db : DB) (rid : Nat) (pids : List Nat) :
    commitState db rid pids = replacedDB db rid pids := by
  unfold commitState txOps replacedDB
  rw [List.foldl_cons]
  have hmaps : (pids.map (fun pid => RowOp.ins (rid, pid)))
      = (pids.map (fun pid => ((rid, pid) : Nat × Nat))).map RowOp.ins := by
    rw [List.map_map]
    rfl
  rw [hmaps, foldl_ins_rolePermissions]
  rfl

/-- Claim C6: setRolePermissions runs its row deletions and insertions
inside one transaction whose commit is the wholesale replacement, and a
concurrent reader — who can observe only the state before the
transaction began or the committed state — sees the role's permission
set as either the complete old set or the complete new set, never a
partially-updated one. -/
theorem setRolePermissions_transactional (db : DB) (rid : Nat)
    (pids : List Nat) (s : DB)
    (hvalid : pids.all (fun pid => permissionExists db pid) = true)
    (hs : s ∈ observableStates db rid pids) :
    setRolePermissions db rid pids = Except.ok (commitState db rid pids) ∧
    (getRolePermissions s rid = getRolePermissions db rid ∨
      getRolePermissions s rid = pids) := by
  constructor
  · rw [commitState_eq_replacedDB]
    simp [setRolePermissions, replacedDB, hvalid]
  · simp only [observableStates, List.mem_cons, List.not_mem_nil,
      or_false] at hs
    rcases hs with hs | hs
    · exact Or.inl (by rw [hs])
    · refine Or.inr ?_
      rw [hs, commitState_eq_replacedDB]
      exact getRolePermissions_replacedDB db rid pids

/-- Witness for C6: in the mock database, the committed state of the
transaction replacing role 1's permissions with [11, 12, 21] is the
setRolePermissions result, and the pre-transaction observation is the
complete old set. -/
theorem setRolePermissions_transactional_witness :
    setRolePermissions db0 1 [11, 12, 21]
      = Except.ok (commitState db0 1 [11, 12, 21]) ∧
    (getRolePermissions db0 1 = getRolePermissions db0 1 ∨
      getRolePermissions db0 1 = [11, 12, 21]) :=
  setRolePermissions_transactional db0 1 [11, 12, 21] db0 (by decide)
    (by simp [observableStates])

/-! ## Claim C7: listRoles filtering and pagination -/

/-- Claim C7: every role a listRoles page returns is a stored role whose
name contains the filter as a case-insensitive substring (any stored
role when the filter is absent), and when page 1 is large enough to
hold everything, the page is exactly the filtered list of stored
roles. -/
theorem listRoles_filter_page (db : DB) (f : String) (page size : Nat) :
    (∀ r ∈ listRoles db (some f) page size,
      r ∈ db.roles ∧ containsCI r.name f = true) ∧
    (∀ r ∈ listRoles db none page size, r ∈ db.roles) ∧
    (db.roles.length ≤ size →
      listRoles db (some f) 1 size
        = db.roles.filter (fun r => containsCI r.name f)) ∧
    (db.roles.length ≤ size → listRoles db none 1 size = db.roles) := by
  refine ⟨?_, ?_, ?_, ?_⟩
  · intro r hr
    have h1 : r ∈ db.roles.filter (matchesFilter (some f)) :=
      List.drop_subset _ _ (List.take_subset _ _ hr)
    have h2 := List.mem_filter.mp h1
    exact ⟨h2.1, h2.2⟩
  · intro r hr
    have h1 : r ∈ db.roles.filter (matchesFilter none) :=
      List.drop_subset _ _ (List.take_subset _ _ hr)
    exact (List.mem_filter.mp h1).1
  · intro hlen
    unfold listRoles
    rw [Nat.sub_self, Nat.zero_mul, List.drop_zero]
    have hlen2 : (db.roles.filter (matchesFilter (some f))).length ≤ size :=
      Nat.le_trans (List.length_filter_le _ _) hlen
    rw [List.take_of_length_le hlen2]
    rfl
  · intro hlen
    unfold listRoles
    rw [Nat.sub_self, Nat.zero_mul, List.drop_zero]
    have hall : db.roles.filter (matchesFilter none) = db.roles := by
      have : ∀ r ∈ db.roles, matchesFilter none r = true := fun _ _ => rfl
      exact List.filter_eq_self.mpr this
    rw [hall, List.take_of_length_le hlen]

/-- Witness for C7: in the mock database, page 1 of size 10 filtered by
the substring 理员 is exactly the roles whose names contain it. -/
theorem listRoles_filter_page_witness :
    listRoles db0 (some "理员") 1 10
      = db0.roles.filter (fun r => containsCI r.name "理员") :=
  (listRoles_filter_page db0 "理员" 1 10).2.2.1 (by decide)

/-! ## Claim C8: User responses are hash-independent -/

theorem userToResponse_scrubHash (u : User) :
    userToResponse (scrubHash u) = userToResponse u := rfl

/-- Claim C8: no User response carries the password hash — for any two
database states whose user tables agree on everything except password
hashes, the list-users response and every get-user response are
identical. -/
theorem user_endpoints_hash_independent (db₁ db₂ : DB) (uid : Nat)
    (h : db₁.users.map scrubHash = db₂.users.map scrubHash) :
    listUsers db₁ = listUsers db₂ ∧ getUser db₁ uid = getUser db₂ uid := by
  have hresp : ∀ (l : List User),
      l.map userToResponse = (l.map scrubHash).map userToResponse := by
    intro l
    rw [List.map_map]
    rfl
  constructor
  · unfold listUsers
    rw [hresp db₁.users, h, ← hresp db₂.users]
  · unfold getUser
    have hfind : ∀ (l : List User),
        (l.find? (fun u => u.id == uid)).map scrubHash
          = (l.map scrubHash).find? (fun u => u.id == uid) := by
      intro l
      rw [List.find?_map]
      rfl
    have h2 : (db₁.users.find? (fun u => u.id == uid)).map scrubHash
        = (db₂.users.find? (fun u => u.id == uid)).map scrubHash := by
      rw [hfind, hfind, h]
    have h3 := congrArg (Option.map userToResponse) h2
    rw [Option.map_map, Option.map_map] at h3
    exact h3

/-- Witness for C8: db0 and db0' differ only in the admin user's stored
hash, and both User read endpoints answer identically on them. -/
theorem user_endpoints_hash_independent_witness :
    listUsers db0 = listUsers db0' ∧ getUser db0 1 = getUser db0' 1 :=
  user_endpoints_hash_independent db0 db0' 1 (by decide)
